import Mathlib

/-!
Verification development for the CAPSTONE network-deployment scripts.

The repository drives VLAN configuration onto EXOS switches over an
interactive SSH shell.  The engine under study lives in
`src/configure_vlans_v2.py` (command timeout policy `COMMAND_TIMEOUTS` /
`get_timeout`, connection retry `ssh_connect`, the quiescence-polling
command executor `send_command`, and the per-switch sequencer
`deploy_switch`) and in the earlier variant `src/configure_vlans_exos.py`
(its `deploy_switch` and the five-probe `verify_switch`).

Modelling conventions:
* Durations are in deciseconds (tenths of a second), so the 1.5 s default
  wait is `15`, the 2.0 s polling window is `20`, the 0.5 s grace window is
  `5`, the 0.1 s poll sleep is `1`, and the 3 s inter-attempt connect delay
  is `30`.  All arithmetic is exact over `Nat`.
* Network transport is abstracted by oracles: a connection-attempt oracle
  (`Nat → Bool`), a per-command transport oracle (`Nat → SendOutcome`,
  where `SendOutcome.drop` stands for an exception raised inside
  `send_command`, e.g. the SSH channel dying), and one `SendOutcome` per
  verification probe.  Everything else is translated directly from the
  Python source.
* `trace` instruments each deployment run with the list of command strings
  actually transmitted over the shell, in transmission order; it is not a
  field of the Python result dict but records the observable sequence of
  `shell.send` calls.
-/

namespace Capstone

/-- Substring occurrence on character lists: `listContains p t = true` iff
`p` occurs contiguously inside `t`.  Mirrors Python's `p in t` for strings. -/
def listContains (p : List Char) : List Char → Bool
  | [] => p.isEmpty
  | c :: rest => p.isPrefixOf (c :: rest) || listContains p rest

/-- Python's substring operator `pat in text`. -/
def strContains (text pat : String) : Bool :=
  listContains pat.data text.data

/-- COMMAND_TIMEOUTS table of configure_vlans_v2.py, in insertion order
(Python dicts preserve it).  Values in deciseconds: 25.0 s, 8.0 s, 3.0 s,
and the 1.5 s default. -/
def COMMAND_TIMEOUTS : List (String × Nat) :=
  [("configure ssh2 key", 250),
   ("save configuration", 80),
   ("enable ssh2", 30),
   ("default", 15)]

/-- get_timeout of configure_vlans_v2.py: scan the table in order, return
the value of the first key occurring in `cmd`; fall back to the table's
"default" value (15 deciseconds = 1.5 s). -/
def get_timeout (cmd : String) : Nat :=
  match COMMAND_TIMEOUTS.find? (fun kv => strContains cmd kv.fst) with
  | some kv => kv.snd
  | none => 15

/-- Python's `str.strip()`: drop leading and trailing whitespace.
Implemented over the character list so that it evaluates inside the
kernel. -/
def pyStrip (s : String) : String :=
  ⟨((s.data.dropWhile Char.isWhitespace).reverse.dropWhile Char.isWhitespace).reverse⟩

/-- Python's `s[:n]` character-count truncation. -/
def pyTruncate (n : Nat) (s : String) : String :=
  ⟨s.data.take n⟩

/-- Verdict assigned to one command's captured output. -/
inductive Verdict
  | success
  | benignWarning
  | error
  deriving DecidableEq, Repr

/-- Error markers checked by deploy_switch in configure_vlans_v2.py. -/
def ERROR_MARKERS : List String :=
  ["Error:", "Invalid input", "Cannot", "Failed", "Unknown command"]

/-- Warning markers checked by deploy_switch in configure_vlans_v2.py. -/
def WARNING_MARKERS : List String :=
  ["already exists", "already a member"]

/-- has_error of configure_vlans_v2.py deploy_switch:
`any(err in output for err in ["Error:", "Invalid input", "Cannot",
"Failed", "Unknown command"])`. -/
def has_error (output : String) : Bool :=
  ERROR_MARKERS.any (fun e => strContains output e)

/-- is_warning of configure_vlans_v2.py deploy_switch:
`"already exists" in output or "already a member" in output`. -/
def is_warning (output : String) : Bool :=
  strContains output "already exists" || strContains output "already a member"

/-- Output classifier of configure_vlans_v2.py deploy_switch: the
`if is_warning: ... elif has_error: ... else: ...` branch over one
command's captured output. -/
def classify (output : String) : Verdict :=
  if is_warning output then .benignWarning
  else if has_error output then .error
  else .success

/-- Transport outcome of one send_command call: either the captured output
text, or `drop` for an exception raised inside the call (SSH channel died). -/
inductive SendOutcome
  | drop
  | ok (output : String)
  deriving DecidableEq, Repr

/-- Whether a transport outcome is a drop. -/
def SendOutcome.isDrop : SendOutcome → Bool
  | .drop => true
  | .ok _ => false

/-- Model of ssh_connect (configure_vlans_v2.py) over the list of
per-attempt outcomes, one Bool per attempt (`true` = paramiko connected).
Returns (connected, attempts made, total sleep in deciseconds): each failed
attempt other than the last sleeps 30 (`time.sleep(3)`); exhausting the
list raises ConnectionError, i.e. returns `false`. -/
def ssh_connect_run : List Bool → Bool × Nat × Nat
  | [] => (false, 0, 0)
  | b :: rest =>
    if b then (true, 1, 0)
    else
      match rest with
      | [] => (false, 1, 0)
      | r :: rs =>
        let (c, n, s) := ssh_connect_run (r :: rs)
        (c, n + 1, s + 30)

/-- Oracles a v2 deployment run draws on: the connection-attempt oracle
(attempt number, 1-based, to success), the per-command transport oracle
(0-based command index to outcome), and the outcome of the final
verification ping. -/
structure DeployEnv where
  connOutcome : Nat → Bool
  send : Nat → SendOutcome
  ping : SendOutcome

/-- Outcomes of the three connection attempts deploy_switch makes through
`ssh_connect(host, USERNAME, PASSWORD)` (default `retries=3`). -/
def connAttempts (env : DeployEnv) : List Bool :=
  (List.range 3).map (fun i => env.connOutcome (i + 1))

/-- Whether the v2 session setup succeeds (ssh_connect returns a client
within its three attempts). -/
def connOk (env : DeployEnv) : Bool :=
  (ssh_connect_run (connAttempts env)).1

/-- Mutable state of the v2 command loop: the `commands_sent` counter, the
`errors` list, the instrumented transmission trace, and whether the
transport dropped mid-loop. -/
structure LoopOut where
  commands_sent : Nat
  errors : List String
  trace : List String
  dropped : Bool
  deriving DecidableEq, Repr

/-- Command loop of deploy_switch (configure_vlans_v2.py): for each command
in order, send it, classify the output (warning first, then error, else
success), append an error summary `"CMD: <cmd> | <output.strip()[:100]>"`
on an Error verdict, and increment `commands_sent`.  A transport drop
raises out of the loop, leaving the state as accumulated so far. -/
def execLoop (send : Nat → SendOutcome) : List String → Nat → LoopOut → LoopOut
  | [], _, acc => acc
  | c :: rest, i, acc =>
    match send i with
    | .drop => { acc with dropped := true }
    | .ok out =>
      let errs :=
        match classify out with
        | .error => acc.errors ++ ["CMD: " ++ c ++ " | " ++ (pyTruncate 100 (pyStrip out))]
        | _ => acc.errors
      execLoop send rest (i + 1)
        { commands_sent := acc.commands_sent + 1, errors := errs,
          trace := acc.trace ++ [c], dropped := acc.dropped }

/-- Gateway-ping recognizer of configure_vlans_v2.py deploy_switch:
`"3 packets received" in ping_out or "bytes from 10.10.10.1" in ping_out`. -/
def v2_ping_ok (out : String) : Bool :=
  strContains out "3 packets received" || strContains out "bytes from 10.10.10.1"

/-- Result record a deployment run returns (the Python result dict), plus
the instrumented transmission trace. -/
structure DeployResult where
  status : String
  commands_sent : Nat
  errors : List String
  trace : List String
  deriving DecidableEq, Repr

/-- deploy_switch of configure_vlans_v2.py.  The whole body runs under one
`try`: a connection failure, a transport drop inside the command loop, or a
drop during the verification ping is caught by the `except` clause, which
sets status "failed" and appends the exception text; otherwise the status
is "success" when the gateway ping matches the recognizer and "partial"
otherwise.  Exception texts are modelled by fixed strings (the claims never
inspect them). -/
def deploy_switch_v2 (env : DeployEnv) (cmds : List String) : DeployResult :=
  if connOk env then
    let lo := execLoop env.send cmds 0 ⟨0, [], [], false⟩
    if lo.dropped then
      { status := "failed", commands_sent := lo.commands_sent,
        errors := lo.errors ++ ["transport dropped"], trace := lo.trace }
    else
      match env.ping with
      | .drop =>
        { status := "failed", commands_sent := lo.commands_sent,
          errors := lo.errors ++ ["transport dropped"], trace := lo.trace }
      | .ok out =>
        if v2_ping_ok out then
          { status := "success", commands_sent := lo.commands_sent,
            errors := lo.errors, trace := lo.trace }
        else
          { status := "partial", commands_sent := lo.commands_sent,
            errors := lo.errors, trace := lo.trace }
  else
    { status := "failed", commands_sent := 0,
      errors := ["Could not connect after 3 attempts"], trace := [] }

/-- Error detection of configure_vlans_exos.py deploy_switch:
`"Error" in output or "Invalid" in output` (broader markers than v2, and no
warning check at all). -/
def exos_has_error (output : String) : Bool :=
  strContains output "Error" || strContains output "Invalid"

/-- Mutable state of the exos command loop.  Note: the exos variant keeps
no per-command counter inside the loop; `commands_sent` is assigned only
after the loop completes. -/
structure ExosLoopOut where
  errors : List String
  trace : List String
  dropped : Bool
  deriving DecidableEq, Repr

/-- Command loop of deploy_switch (configure_vlans_exos.py): send each
command in order, append `"CMD: <cmd> | OUTPUT: <output.strip()>"` when the
output matches the error markers.  A transport drop raises out of the loop. -/
def exosLoop (send : Nat → SendOutcome) : List String → Nat → ExosLoopOut → ExosLoopOut
  | [], _, acc => acc
  | c :: rest, i, acc =>
    match send i with
    | .drop => { acc with dropped := true }
    | .ok out =>
      let errs :=
        if exos_has_error out then
          acc.errors ++ ["CMD: " ++ c ++ " | OUTPUT: " ++ pyStrip out]
        else acc.errors
      exosLoop send rest (i + 1)
        { errors := errs, trace := acc.trace ++ [c], dropped := acc.dropped }

/-- Oracles an exos deployment run draws on: connection success (the exos
ssh_connect has no retry), the per-command transport oracle, and one
outcome per probe of verify_switch, in the order the probes run
(show vlan, show ports information, show iproute, ping gateway, ping core). -/
structure ExosEnv where
  conn : Bool
  send : Nat → SendOutcome
  vlanOut : SendOutcome
  portsOut : SendOutcome
  routeOut : SendOutcome
  gwOut : SendOutcome
  coreOut : SendOutcome

/-- Whether any of the five verify_switch probes raises (dropping the
transport during verification aborts deploy_switch into its except clause). -/
def verifyDropped (env : ExosEnv) : Bool :=
  env.vlanOut.isDrop || env.portsOut.isDrop || env.routeOut.isDrop ||
    env.gwOut.isDrop || env.coreOut.isDrop

/-- Gateway-ping recognizer of configure_vlans_exos.py deploy_switch:
`"3 packets received" in gw_ping or "bytes from" in gw_ping`. -/
def exos_ping_ok (out : String) : Bool :=
  strContains out "3 packets received" || strContains out "bytes from"

/-- deploy_switch of configure_vlans_exos.py.  `commands_sent` is assigned
`len(commands)` only after the command loop finishes, so a drop inside the
loop reaches the except clause with the counter still 0.  The status is
decided solely from the gateway ping: "success" when its output matches the
recognizer, else "partial"; any exception yields "failed".  The core-ping
probe output is stored in the verification dict but never inspected. -/
def deploy_switch_exos (env : ExosEnv) (cmds : List String) : DeployResult :=
  if env.conn then
    let lo := exosLoop env.send cmds 0 ⟨[], [], false⟩
    if lo.dropped then
      { status := "failed", commands_sent := 0,
        errors := lo.errors ++ ["transport dropped"], trace := lo.trace }
    else if verifyDropped env then
      { status := "failed", commands_sent := cmds.length,
        errors := lo.errors ++ ["transport dropped"], trace := lo.trace }
    else
      match env.gwOut with
      | .drop =>
        { status := "failed", commands_sent := cmds.length,
          errors := lo.errors ++ ["transport dropped"], trace := lo.trace }
      | .ok gw =>
        if exos_ping_ok gw then
          { status := "success", commands_sent := cmds.length,
            errors := lo.errors, trace := lo.trace }
        else
          { status := "partial", commands_sent := cmds.length,
            errors := lo.errors, trace := lo.trace }
  else
    { status := "failed", commands_sent := 0,
      errors := ["connect failed"], trace := [] }

/-- Polling loop of send_command (configure_vlans_v2.py), in deciseconds.
State: current time `t`, current `deadline`, accumulated output.  `chunks`
is the stream of not-yet-consumed incoming data, as (arrival time, text)
pairs in arrival order; a chunk is available (`recv_ready`) once `t` has
reached its arrival time.  Each iteration: if the deadline has passed,
return; else if data is available, read it and set `deadline = now + 5`
(the 0.5 s grace window); else sleep one decisecond (`time.sleep(0.1)`). -/
def pollLoop : List (Nat × String) → Nat → Nat → String → Nat × String
  | chunks, t, d, acc =>
    if t < d then
      match chunks with
      | [] => pollLoop [] (t + 1) d acc
      | (a, s) :: rest =>
        if a ≤ t then pollLoop rest t (t + 5) (acc ++ s)
        else pollLoop ((a, s) :: rest) (t + 1) d acc
    else (t, acc)
  termination_by chunks t d _ => (chunks.length, d - t)
  decreasing_by
    all_goals simp_wf
    · right
      omega
    · left
      omega
    · right
      omega

/-- send_command of configure_vlans_v2.py with the transport abstracted to
a chunk-arrival trace.  Time 0 is the moment the command is transmitted:
the call sleeps the resolved `wait`, then runs the polling loop with the
initial deadline `wait + 20` (`time.time() + 2.0`).  Returns (return time,
captured output). -/
def send_command_model (wait : Nat) (chunks : List (Nat × String)) : Nat × String :=
  pollLoop chunks wait (wait + 20) ""

/-- send_command with `wait=None`: the base wait is resolved by the policy
table (`wait = get_timeout(command)`). -/
def send_command_auto (cmd : String) (chunks : List (Nat × String)) : Nat × String :=
  send_command_model (get_timeout cmd) chunks

/-- Chunk trace in which data keeps arriving every 0.4 s: each receipt
resets the polling deadline, so the loop outlives the nominal 2 s window. -/
def demoChunks : List (Nat × String) :=
  [(15, "a"), (19, "b"), (23, "c"), (27, "d"), (31, "e"),
   (35, "f"), (39, "g"), (43, "h")]

/-- Run environment in which the connection succeeds, the single command
comes back with a hard error marker, and the gateway ping succeeds. -/
def envC1 : DeployEnv :=
  { connOutcome := fun _ => true,
    send := fun _ => SendOutcome.ok "Error: VLAN creation rejected",
    ping := SendOutcome.ok "3 packets received" }

/-- v2 run environment whose transport survives command 0 and then drops. -/
def envC2w : DeployEnv :=
  { connOutcome := fun _ => true,
    send := fun i => if i = 0 then SendOutcome.ok "done" else SendOutcome.drop,
    ping := SendOutcome.drop }

/-- Exos run environment whose transport survives command 0 and then drops. -/
def envC2x : ExosEnv :=
  { conn := true,
    send := fun i => if i = 0 then SendOutcome.ok "done" else SendOutcome.drop,
    vlanOut := SendOutcome.ok "", portsOut := SendOutcome.ok "",
    routeOut := SendOutcome.ok "", gwOut := SendOutcome.ok "3 packets received",
    coreOut := SendOutcome.ok "" }

/-- v2 run environment in which the second command's output carries an
error marker while every other command succeeds and the gateway ping
passes. -/
def envC5 : DeployEnv :=
  { connOutcome := fun _ => true,
    send := fun i => if i = 1 then SendOutcome.ok "Error: bad value" else SendOutcome.ok "done",
    ping := SendOutcome.ok "3 packets received" }

/-- v2 run environment whose target is unreachable on every connection
attempt. -/
def envC7 : DeployEnv :=
  { connOutcome := fun _ => false,
    send := fun _ => SendOutcome.drop,
    ping := SendOutcome.drop }

/-- Exos run environment in which the gateway ping passes but the core
(peer) ping fails. -/
def envC8 : ExosEnv :=
  { conn := true,
    send := fun _ => SendOutcome.ok "done",
    vlanOut := SendOutcome.ok "", portsOut := SendOutcome.ok "",
    routeOut := SendOutcome.ok "",
    gwOut := SendOutcome.ok "3 packets received",
    coreOut := SendOutcome.ok "request timed out" }

/-- Correctness of the executable substring test against the mathematical
contiguous-sublist relation. -/
theorem listContains_iff (p t : List Char) : listContains p t = true ↔ p <:+: t := by
  induction t with
  | nil =>
    simp [listContains, List.isEmpty_iff]
  | cons c rest ih =>
    rw [listContains]
    simp [Bool.or_eq_true, List.isPrefixOf_iff_prefix, ih, List.infix_cons_iff]

/-- Python's `pat in text` holds exactly when `pat`'s characters form a
contiguous run inside `text`'s characters. -/
theorem strContains_iff (text pat : String) :
    strContains text pat = true ↔ pat.data <:+: text.data :=
  listContains_iff pat.data text.data

/-- is_warning holds exactly when some configured warning marker occurs in
the output. -/
theorem is_warning_iff (t : String) :
    is_warning t = true ↔ ∃ w ∈ WARNING_MARKERS, w.data <:+: t.data := by
  simp [is_warning, WARNING_MARKERS, Bool.or_eq_true, strContains_iff]

/-- has_error holds exactly when some configured error marker occurs in the
output. -/
theorem has_error_iff (t : String) :
    has_error t = true ↔ ∃ e ∈ ERROR_MARKERS, e.data <:+: t.data := by
  simp [has_error, List.any_eq_true, strContains_iff]

/-- Value of the polling loop once the deadline has already passed. -/
theorem pollLoop_exit (chunks : List (Nat × String)) (t d : Nat) (acc : String)
    (h : ¬ t < d) : pollLoop chunks t d acc = (t, acc) := by
  rw [pollLoop.eq_def]
  simp [h]

/-- Time never runs backwards inside the polling loop. -/
theorem pollLoop_le_fst (chunks : List (Nat × String)) (t d : Nat) (acc : String) :
    t ≤ (pollLoop chunks t d acc).1 := by
  induction chunks, t, d, acc using pollLoop.induct with
  | case1 t d acc h ih =>
    rw [pollLoop]
    simp only [h, if_true]
    omega
  | case2 t d acc h a s rest ha ih =>
    rw [pollLoop]
    simp only [h, if_true, ha, if_true]
    omega
  | case3 t d acc h a s rest ha ih =>
    rw [pollLoop]
    simp only [h, if_true, ha, if_false]
    omega
  | case4 chunks t d acc h =>
    rw [pollLoop_exit _ _ _ _ h]

/-- Worst-case bound for the polling loop: every consumed chunk can push
the deadline out by at most 4 deciseconds beyond where it stood. -/
theorem pollLoop_fst_le (chunks : List (Nat × String)) (t d : Nat) (acc : String) :
    (pollLoop chunks t d acc).1 ≤ max t d + 4 * chunks.length := by
  induction chunks, t, d, acc using pollLoop.induct with
  | case1 t d acc h ih =>
    rw [pollLoop]
    simp only [h, if_true]
    simp only [List.length_nil] at ih ⊢
    omega
  | case2 t d acc h a s rest ha ih =>
    rw [pollLoop]
    simp only [h, if_true, ha, if_true]
    simp only [List.length_cons]
    omega
  | case3 t d acc h a s rest ha ih =>
    rw [pollLoop]
    simp only [h, if_true, ha, if_false]
    simp only [List.length_cons] at ih ⊢
    omega
  | case4 chunks t d acc h =>
    rw [pollLoop_exit _ _ _ _ h]
    simp
    omega

/-- With no incoming data the polling loop runs to its deadline exactly. -/
theorem pollLoop_nil_eq (t d : Nat) (acc : String) :
    pollLoop [] t d acc = (max t d, acc) := by
  have key : ∀ (chunks : List (Nat × String)) (t d : Nat) (acc : String),
      chunks = [] → pollLoop chunks t d acc = (max t d, acc) := by
    intro chunks t d acc
    induction chunks, t, d, acc using pollLoop.induct with
    | case1 t d acc h ih =>
      intro _
      rw [pollLoop]
      simp only [h, if_true]
      rw [ih rfl]
      congr 1
      omega
    | case2 t d acc h a s rest ha ih => intro hc; cases hc
    | case3 t d acc h a s rest ha ih => intro hc; cases hc
    | case4 chunks t d acc h =>
      intro _
      rw [pollLoop_exit _ _ _ _ h]
      congr 1
      omega
  exact key [] t d acc rfl

/-- When the transport survives every command, the v2 loop counts and
transmits all of them, in order, and the dropped flag is untouched —
whatever the outputs classify as. -/
theorem execLoop_no_drop (send : Nat → SendOutcome) (cmds : List String) :
    ∀ (i : Nat) (acc : LoopOut),
      (∀ j, j < cmds.length → send (i + j) ≠ SendOutcome.drop) →
      (execLoop send cmds i acc).commands_sent = acc.commands_sent + cmds.length ∧
      (execLoop send cmds i acc).trace = acc.trace ++ cmds ∧
      (execLoop send cmds i acc).dropped = acc.dropped := by
  induction cmds with
  | nil =>
    intro i acc _
    simp [execLoop]
  | cons c rest ih =>
    intro i acc h
    have h0 : send i ≠ SendOutcome.drop := by
      have := h 0 (by simp)
      simpa using this
    rw [execLoop]
    cases hs : send i with
    | drop => exact absurd hs h0
    | ok out =>
      have hrec := ih (i + 1)
        { commands_sent := acc.commands_sent + 1,
          errors :=
            match classify out with
            | .error => acc.errors ++ ["CMD: " ++ c ++ " | " ++ (pyTruncate 100 (pyStrip out))]
            | _ => acc.errors,
          trace := acc.trace ++ [c], dropped := acc.dropped }
        (fun j hj => by
          have := h (j + 1) (by simpa using Nat.succ_lt_succ hj)
          rwa [show i + (j + 1) = i + 1 + j by omega] at this)
      rcases hrec with ⟨h1, h2, h3⟩
      refine ⟨?_, ?_, ?_⟩
      · rw [h1]
        simp
        omega
      · rw [h2]
        simp
      · rw [h3]

/-- When the transport drops while sending command `k` (all earlier
commands having gone through), the v2 loop stops with exactly `k` more
commands counted and traced, and the dropped flag set. -/
theorem execLoop_drop_at (send : Nat → SendOutcome) (cmds : List String) :
    ∀ (i : Nat) (acc : LoopOut) (k : Nat),
      k < cmds.length →
      (∀ j, j < k → send (i + j) ≠ SendOutcome.drop) →
      send (i + k) = SendOutcome.drop →
      (execLoop send cmds i acc).commands_sent = acc.commands_sent + k ∧
      (execLoop send cmds i acc).trace = acc.trace ++ cmds.take k ∧
      (execLoop send cmds i acc).dropped = true := by
  induction cmds with
  | nil =>
    intro i acc k hk
    simp at hk
  | cons c rest ih =>
    intro i acc k hk hpre hdrop
    match k with
    | 0 =>
      have h0 : send i = SendOutcome.drop := by simpa using hdrop
      rw [execLoop, h0]
      simp
    | k + 1 =>
      have h0 : send i ≠ SendOutcome.drop := by
        have := hpre 0 (by omega)
        simpa using this
      rw [execLoop]
      cases hs : send i with
      | drop => exact absurd hs h0
      | ok out =>
        have hrec := ih (i + 1)
          { commands_sent := acc.commands_sent + 1,
            errors :=
              match classify out with
              | .error => acc.errors ++ ["CMD: " ++ c ++ " | " ++ (pyTruncate 100 (pyStrip out))]
              | _ => acc.errors,
            trace := acc.trace ++ [c], dropped := acc.dropped }
          k (by simpa using hk)
          (fun j hj => by
            have := hpre (j + 1) (by omega)
            rwa [show i + (j + 1) = i + 1 + j by omega] at this)
          (by rwa [show i + 1 + k = i + (k + 1) by omega])
        rcases hrec with ⟨h1, h2, h3⟩
        refine ⟨?_, ?_, h3⟩
        · rw [h1]
          simp
          omega
        · rw [h2]
          simp [List.take_succ_cons]

/-- Whatever the transport does, the v2 loop only ever appends some prefix
of the command list to the transmission trace. -/
theorem execLoop_trace_take (send : Nat → SendOutcome) (cmds : List String) :
    ∀ (i : Nat) (acc : LoopOut),
      ∃ n, (execLoop send cmds i acc).trace = acc.trace ++ cmds.take n := by
  induction cmds with
  | nil =>
    intro i acc
    exact ⟨0, by simp [execLoop]⟩
  | cons c rest ih =>
    intro i acc
    rw [execLoop]
    cases hs : send i with
    | drop => exact ⟨0, by simp⟩
    | ok out =>
      obtain ⟨n, hn⟩ := ih (i + 1)
        { commands_sent := acc.commands_sent + 1,
          errors :=
            match classify out with
            | .error => acc.errors ++ ["CMD: " ++ c ++ " | " ++ (pyTruncate 100 (pyStrip out))]
            | _ => acc.errors,
          trace := acc.trace ++ [c], dropped := acc.dropped }
      refine ⟨n + 1, ?_⟩
      rw [hn]
      simp [List.take_succ_cons]

/-- When the transport drops while sending command `k`, the exos loop exits
with the dropped flag set (its caller then reaches the except clause before
`commands_sent` is ever assigned). -/
theorem exosLoop_drop_at (send : Nat → SendOutcome) (cmds : List String) :
    ∀ (i : Nat) (acc : ExosLoopOut) (k : Nat),
      k < cmds.length →
      (∀ j, j < k → send (i + j) ≠ SendOutcome.drop) →
      send (i + k) = SendOutcome.drop →
      (exosLoop send cmds i acc).dropped = true := by
  induction cmds with
  | nil =>
    intro i acc k hk
    simp at hk
  | cons c rest ih =>
    intro i acc k hk hpre hdrop
    match k with
    | 0 =>
      have h0 : send i = SendOutcome.drop := by simpa using hdrop
      rw [exosLoop, h0]
    | k + 1 =>
      have h0 : send i ≠ SendOutcome.drop := by
        have := hpre 0 (by omega)
        simpa using this
      rw [exosLoop]
      cases hs : send i with
      | drop => exact absurd hs h0
      | ok out =>
        exact ih (i + 1) _ k (by simpa using hk)
          (fun j hj => by
            have := hpre (j + 1) (by omega)
            rwa [show i + (j + 1) = i + 1 + j by omega] at this)
          (by rwa [show i + 1 + k = i + (k + 1) by omega])

/-- Shape of the v2 result when the connection retry budget is exhausted. -/
theorem deploy_v2_conn_fail (env : DeployEnv) (cmds : List String)
    (h : connOk env = false) :
    deploy_switch_v2 env cmds =
      { status := "failed", commands_sent := 0,
        errors := ["Could not connect after 3 attempts"], trace := [] } := by
  unfold deploy_switch_v2
  simp [h]

/-- Shape of the v2 result when the transport drops inside the command
loop. -/
theorem deploy_v2_dropped (env : DeployEnv) (cmds : List String)
    (h1 : connOk env = true)
    (h2 : (execLoop env.send cmds 0 ⟨0, [], [], false⟩).dropped = true) :
    deploy_switch_v2 env cmds =
      { status := "failed",
        commands_sent := (execLoop env.send cmds 0 ⟨0, [], [], false⟩).commands_sent,
        errors := (execLoop env.send cmds 0 ⟨0, [], [], false⟩).errors ++ ["transport dropped"],
        trace := (execLoop env.send cmds 0 ⟨0, [], [], false⟩).trace } := by
  unfold deploy_switch_v2
  simp [h1, h2]

/-- Shape of the v2 result when the transport drops during the
verification ping. -/
theorem deploy_v2_ping_drop (env : DeployEnv) (cmds : List String)
    (h1 : connOk env = true)
    (h2 : (execLoop env.send cmds 0 ⟨0, [], [], false⟩).dropped = false)
    (h3 : env.ping = SendOutcome.drop) :
    deploy_switch_v2 env cmds =
      { status := "failed",
        commands_sent := (execLoop env.send cmds 0 ⟨0, [], [], false⟩).commands_sent,
        errors := (execLoop env.send cmds 0 ⟨0, [], [], false⟩).errors ++ ["transport dropped"],
        trace := (execLoop env.send cmds 0 ⟨0, [], [], false⟩).trace } := by
  unfold deploy_switch_v2
  simp [h1, h2, h3]

/-- Shape of the v2 result when the run completes: the status comes from
the gateway-ping recognizer alone. -/
theorem deploy_v2_done (env : DeployEnv) (cmds : List String) (out : String)
    (h1 : connOk env = true)
    (h2 : (execLoop env.send cmds 0 ⟨0, [], [], false⟩).dropped = false)
    (h3 : env.ping = SendOutcome.ok out) :
    deploy_switch_v2 env cmds =
      { status := if v2_ping_ok out then "success" else "partial",
        commands_sent := (execLoop env.send cmds 0 ⟨0, [], [], false⟩).commands_sent,
        errors := (execLoop env.send cmds 0 ⟨0, [], [], false⟩).errors,
        trace := (execLoop env.send cmds 0 ⟨0, [], [], false⟩).trace } := by
  unfold deploy_switch_v2
  by_cases h4 : v2_ping_ok out = true
  · simp [h1, h2, h3, h4]
  · simp only [Bool.not_eq_true] at h4
    simp [h1, h2, h3, h4]

/-- Shape of the exos result when the transport drops inside the command
loop: the counter was never assigned, so it is returned as 0. -/
theorem deploy_exos_dropped (env : ExosEnv) (cmds : List String)
    (h1 : env.conn = true)
    (h2 : (exosLoop env.send cmds 0 ⟨[], [], false⟩).dropped = true) :
    deploy_switch_exos env cmds =
      { status := "failed", commands_sent := 0,
        errors := (exosLoop env.send cmds 0 ⟨[], [], false⟩).errors ++ ["transport dropped"],
        trace := (exosLoop env.send cmds 0 ⟨[], [], false⟩).trace } := by
  unfold deploy_switch_exos
  simp [h1, h2]

/-- Shape of the exos result when the run completes: `commands_sent` is
the full list length and the status comes from the gateway-ping recognizer
alone — the core-ping probe is never consulted. -/
theorem deploy_exos_done (env : ExosEnv) (cmds : List String) (gw : String)
    (h1 : env.conn = true)
    (h2 : (exosLoop env.send cmds 0 ⟨[], [], false⟩).dropped = false)
    (h3 : verifyDropped env = false)
    (h4 : env.gwOut = SendOutcome.ok gw) :
    deploy_switch_exos env cmds =
      { status := if exos_ping_ok gw then "success" else "partial",
        commands_sent := cmds.length,
        errors := (exosLoop env.send cmds 0 ⟨[], [], false⟩).errors,
        trace := (exosLoop env.send cmds 0 ⟨[], [], false⟩).trace } := by
  unfold deploy_switch_exos
  by_cases h5 : exos_ping_ok gw = true
  · simp [h1, h2, h3, h4, h5]
  · simp only [Bool.not_eq_true] at h5
    simp [h1, h2, h3, h4, h5]

/-- C9: for every command string, the resolved wait is the value of the
first pattern of the policy table (in insertion order) occurring as a
substring of the command, and a command matching no pattern resolves to
the 1.5 s (15 decisecond) default.  (The table's last entry is the
"default" key itself, whose value coincides with the fallback.) -/
theorem c9_timeout_policy (cmd : String) :
    get_timeout cmd =
      if "configure ssh2 key".data <:+: cmd.data then 250
      else if "save configuration".data <:+: cmd.data then 80
      else if "enable ssh2".data <:+: cmd.data then 30
      else if "default".data <:+: cmd.data then 15
      else 15 := by
  have e1 := strContains_iff cmd "configure ssh2 key"
  have e2 := strContains_iff cmd "save configuration"
  have e3 := strContains_iff cmd "enable ssh2"
  have e4 := strContains_iff cmd "default"
  unfold get_timeout COMMAND_TIMEOUTS
  cases h1 : strContains cmd "configure ssh2 key" <;>
    cases h2 : strContains cmd "save configuration" <;>
      cases h3 : strContains cmd "enable ssh2" <;>
        cases h4 : strContains cmd "default" <;>
          simp_all [List.find?]

/-- C4: the classifier checks warning markers before error markers — text
containing a warning marker classifies BenignWarning even when an error
marker is also present; an error marker with no warning marker classifies
Error; text with neither classifies Success. -/
theorem c4_classifier_precedence (t : String) :
    ((∃ w ∈ WARNING_MARKERS, w.data <:+: t.data) → classify t = Verdict.benignWarning) ∧
    ((∀ w ∈ WARNING_MARKERS, ¬ w.data <:+: t.data) →
      (∃ e ∈ ERROR_MARKERS, e.data <:+: t.data) → classify t = Verdict.error) ∧
    ((∀ w ∈ WARNING_MARKERS, ¬ w.data <:+: t.data) →
      (∀ e ∈ ERROR_MARKERS, ¬ e.data <:+: t.data) → classify t = Verdict.success) := by
  refine ⟨fun hw => ?_, fun hw he => ?_, fun hw he => ?_⟩
  · have h1 : is_warning t = true := (is_warning_iff t).mpr hw
    simp [classify, h1]
  · have h1 : is_warning t = false := by
      cases h : is_warning t
      · rfl
      · obtain ⟨w, hwm, hwi⟩ := (is_warning_iff t).mp h
        exact absurd hwi (hw w hwm)
    have h2 : has_error t = true := (has_error_iff t).mpr he
    simp [classify, h1, h2]
  · have h1 : is_warning t = false := by
      cases h : is_warning t
      · rfl
      · obtain ⟨w, hwm, hwi⟩ := (is_warning_iff t).mp h
        exact absurd hwi (hw w hwm)
    have h2 : has_error t = false := by
      cases h : has_error t
      · rfl
      · obtain ⟨e, hem, hei⟩ := (has_error_iff t).mp h
        exact absurd hei (he e hem)
    simp [classify, h1, h2]

/-- Witness for C4 at a text carrying both a warning marker ("already
exists") and an error marker ("Error:"): the verdict is BenignWarning. -/
theorem c4_classifier_precedence_witness :
    classify "Error: vlan already exists" = Verdict.benignWarning := by
  refine (c4_classifier_precedence "Error: vlan already exists").1 ?_
  exact ⟨"already exists", by simp [WARNING_MARKERS], by decide⟩

/-- C3 counterexample: with the default 1.5 s (15 ds) base wait and a
chunk arriving every 0.4 s, the polling loop returns at t = 48 — that is
13 deciseconds past the claimed absolute ceiling of 2 s after loop start
(loop starts at 15, the claimed ceiling is 35): receipt of a chunk
replaces the deadline rather than capping it, so the loop is not bounded
by the 2-second window when data keeps arriving. -/
theorem c3_counterexample :
    (send_command_auto "create vlan CORP_NET tag 20" demoChunks).1 = 48 ∧
    get_timeout "create vlan CORP_NET tag 20" + 20 < 48 := by
  have hgt : get_timeout "create vlan CORP_NET tag 20" = 15 := by decide
  constructor
  · rw [send_command_auto, hgt]
    simp [send_command_model, demoChunks, pollLoop]
  · rw [hgt]
    norm_num

/-- C3 amended: the executor never returns before the policy-resolved base
wait has elapsed; with a quiet channel the polling loop runs exactly the
2-second window; and each received chunk resets the deadline to 0.5 s
after receipt, so the loop has no absolute 2-second ceiling — its
worst-case duration is instead bounded by the base wait plus 2 s plus 0.4 s
per received chunk. -/
theorem c3_quiescence_bounds (cmd : String) (chunks : List (Nat × String)) :
    get_timeout cmd ≤ (send_command_auto cmd chunks).1 ∧
    (send_command_auto cmd chunks).1 ≤ get_timeout cmd + 20 + 4 * chunks.length ∧
    (send_command_auto cmd []).1 = get_timeout cmd + 20 := by
  refine ⟨pollLoop_le_fst _ _ _ _, ?_, ?_⟩
  · have h := pollLoop_fst_le chunks (get_timeout cmd) (get_timeout cmd + 20) ""
    have hm : max (get_timeout cmd) (get_timeout cmd + 20) = get_timeout cmd + 20 := by
      omega
    rw [hm] at h
    exact h
  · show (pollLoop [] (get_timeout cmd) (get_timeout cmd + 20) "").1 = get_timeout cmd + 20
    rw [pollLoop_nil_eq]
    show max (get_timeout cmd) (get_timeout cmd + 20) = get_timeout cmd + 20
    omega

/-- C10: deploy_switch always returns a result record (the model is a
total function) and the returned status is always one of "success",
"partial" and "failed" — the initial "unknown" placeholder is unreachable
in a returned result. -/
theorem c10_status_total (env : DeployEnv) (cmds : List String) :
    ((deploy_switch_v2 env cmds).status = "success" ∨
      (deploy_switch_v2 env cmds).status = "partial" ∨
      (deploy_switch_v2 env cmds).status = "failed") ∧
    (deploy_switch_v2 env cmds).status ≠ "unknown" := by
  by_cases h1 : connOk env = true
  · by_cases h2 : (execLoop env.send cmds 0 ⟨0, [], [], false⟩).dropped = true
    · rw [deploy_v2_dropped env cmds h1 h2]
      simp
    · simp only [Bool.not_eq_true] at h2
      cases h3 : env.ping with
      | drop =>
        rw [deploy_v2_ping_drop env cmds h1 h2 h3]
        simp
      | ok out =>
        rw [deploy_v2_done env cmds out h1 h2 h3]
        by_cases h4 : v2_ping_ok out = true <;> simp [h4]
  · simp only [Bool.not_eq_true] at h1
    rw [deploy_v2_conn_fail env cmds h1]
    simp

/-- C6: within one device, commands are transmitted exactly in the
caller-given input order — for every environment the transmitted-command
trace is an initial segment of the input list, so no later command is ever
sent before an earlier one and nothing is reordered. -/
theorem c6_input_order (env : DeployEnv) (cmds : List String) :
    (deploy_switch_v2 env cmds).trace <+: cmds := by
  obtain ⟨n, hn⟩ := execLoop_trace_take env.send cmds 0 ⟨0, [], [], false⟩
  have htake : (execLoop env.send cmds 0 ⟨0, [], [], false⟩).trace = cmds.take n := by
    simpa using hn
  by_cases h1 : connOk env = true
  · by_cases h2 : (execLoop env.send cmds 0 ⟨0, [], [], false⟩).dropped = true
    · rw [deploy_v2_dropped env cmds h1 h2]
      show (execLoop env.send cmds 0 ⟨0, [], [], false⟩).trace <+: cmds
      rw [htake]
      exact List.take_prefix n cmds
    · simp only [Bool.not_eq_true] at h2
      cases h3 : env.ping with
      | drop =>
        rw [deploy_v2_ping_drop env cmds h1 h2 h3]
        show (execLoop env.send cmds 0 ⟨0, [], [], false⟩).trace <+: cmds
        rw [htake]
        exact List.take_prefix n cmds
      | ok out =>
        rw [deploy_v2_done env cmds out h1 h2 h3]
        show (execLoop env.send cmds 0 ⟨0, [], [], false⟩).trace <+: cmds
        rw [htake]
        exact List.take_prefix n cmds
  · simp only [Bool.not_eq_true] at h1
    rw [deploy_v2_conn_fail env cmds h1]
    show ([] : List String) <+: cmds
    exact List.nil_prefix

/-- C5: best-effort semantics — whenever the transport survives every
command, every command of the list is attempted, counted and transmitted
in order, no matter how many outputs classify as Error: a classified Error
verdict never terminates the loop early. -/
theorem c5_best_effort (env : DeployEnv) (cmds : List String)
    (hconn : connOk env = true)
    (hsend : ∀ j, j < cmds.length → env.send j ≠ SendOutcome.drop) :
    (deploy_switch_v2 env cmds).commands_sent = cmds.length ∧
    (deploy_switch_v2 env cmds).trace = cmds := by
  obtain ⟨h1, h2, h3⟩ := execLoop_no_drop env.send cmds 0 ⟨0, [], [], false⟩
    (by simpa using hsend)
  have h1x : (execLoop env.send cmds 0 ⟨0, [], [], false⟩).commands_sent = cmds.length := by
    simpa using h1
  have h2x : (execLoop env.send cmds 0 ⟨0, [], [], false⟩).trace = cmds := by
    simpa using h2
  have h3x : (execLoop env.send cmds 0 ⟨0, [], [], false⟩).dropped = false := by
    simpa using h3
  cases h4 : env.ping with
  | drop =>
    rw [deploy_v2_ping_drop env cmds hconn h3x h4]
    exact ⟨h1x, h2x⟩
  | ok out =>
    rw [deploy_v2_done env cmds out hconn h3x h4]
    exact ⟨h1x, h2x⟩

/-- Witness for C5: the second of three commands classifies as a hard
Error, and still all three commands are attempted and transmitted. -/
theorem c5_best_effort_witness :
    classify "Error: bad value" = Verdict.error ∧
    (deploy_switch_v2 envC5 ["create vlan GUEST_NET tag 40",
      "configure vlan GUEST_NET add ports 4 untagged",
      "save configuration"]).commands_sent = 3 ∧
    (deploy_switch_v2 envC5 ["create vlan GUEST_NET tag 40",
      "configure vlan GUEST_NET add ports 4 untagged",
      "save configuration"]).trace = ["create vlan GUEST_NET tag 40",
      "configure vlan GUEST_NET add ports 4 untagged",
      "save configuration"] := by
  have h := c5_best_effort envC5 ["create vlan GUEST_NET tag 40",
    "configure vlan GUEST_NET add ports 4 untagged",
    "save configuration"] (by decide) (by decide)
  exact ⟨by decide, h.1, h.2⟩

/-- C2 counterexample: in the exos sequencer the transport drops while
sending command 1, after command 0 was attempted and completed — yet the
returned result records 0 commands rather than the claimed 1, because
`commands_sent` is assigned only after the whole loop finishes. -/
theorem c2_counterexample :
    envC2x.send 0 ≠ SendOutcome.drop ∧
    envC2x.send 1 = SendOutcome.drop ∧
    (deploy_switch_exos envC2x ["create vlan CORP_NET tag 20",
      "configure vlan CORP_NET add ports 3 untagged"]).commands_sent = 0 ∧
    (deploy_switch_exos envC2x ["create vlan CORP_NET tag 20",
      "configure vlan CORP_NET add ports 3 untagged"]).commands_sent ≠ 1 := by
  decide

/-- C2 amended: the v2 sequencer records exactly the number of commands
attempted — a transport drop while sending command k (0-based, so k
commands completed) leaves exactly k commands counted and transmitted.
The exos variant assigns `commands_sent` only after the loop completes, so
the same drop makes it record 0. -/
theorem c2_results_count (env : DeployEnv) (eenv : ExosEnv)
    (cmds : List String) (k : Nat)
    (hconn : connOk env = true) (heconn : eenv.conn = true)
    (hk : k < cmds.length)
    (hpre : ∀ j, j < k → env.send j ≠ SendOutcome.drop)
    (hdrop : env.send k = SendOutcome.drop)
    (hepre : ∀ j, j < k → eenv.send j ≠ SendOutcome.drop)
    (hedrop : eenv.send k = SendOutcome.drop) :
    (deploy_switch_v2 env cmds).commands_sent = k ∧
    (deploy_switch_v2 env cmds).trace = cmds.take k ∧
    (deploy_switch_exos eenv cmds).commands_sent = 0 := by
  obtain ⟨h1, h2, h3⟩ := execLoop_drop_at env.send cmds 0 ⟨0, [], [], false⟩ k hk
    (by simpa using hpre) (by simpa using hdrop)
  have hx := exosLoop_drop_at eenv.send cmds 0 ⟨[], [], false⟩ k hk
    (by simpa using hepre) (by simpa using hedrop)
  rw [deploy_v2_dropped env cmds hconn h3, deploy_exos_dropped eenv cmds heconn hx]
  refine ⟨by simpa using h1, by simpa using h2, rfl⟩

/-- Witness for C2 as amended: the transport drops at command 1; the v2
result records 1 command, the exos result records 0. -/
theorem c2_results_count_witness :
    (deploy_switch_v2 envC2w ["create vlan CORP_NET tag 20",
      "configure vlan CORP_NET add ports 3 untagged"]).commands_sent = 1 ∧
    (deploy_switch_v2 envC2w ["create vlan CORP_NET tag 20",
      "configure vlan CORP_NET add ports 3 untagged"]).trace =
      ["create vlan CORP_NET tag 20"] ∧
    (deploy_switch_exos envC2x ["create vlan CORP_NET tag 20",
      "configure vlan CORP_NET add ports 3 untagged"]).commands_sent = 0 := by
  have h := c2_results_count envC2w envC2x ["create vlan CORP_NET tag 20",
    "configure vlan CORP_NET add ports 3 untagged"] 1
    (by decide) rfl (by decide) (by decide) rfl (by decide) rfl
  exact ⟨h.1, h.2.1, h.2.2⟩

/-- C1 counterexample: a run in which a command's output classifies as a
hard Error (it lands in the errors list) while the gateway ping passes
still ends with overall status "success" — the sequencer derives the
overall status from the verification ping alone, contradicting
"Success iff zero Error verdicts and all probes pass". -/
theorem c1_counterexample :
    classify "Error: VLAN creation rejected" = Verdict.error ∧
    (deploy_switch_v2 envC1 ["create vlan CORP_NET tag 20"]).status = "success" ∧
    (deploy_switch_v2 envC1 ["create vlan CORP_NET tag 20"]).errors ≠ [] := by
  decide

/-- C1 amended: the overall status is "failed" iff the run raised (the
connection never became usable, the transport dropped mid-loop, or it
dropped during the verification ping); when the run completes, the status
is "success" or "partial" solely according to the gateway-ping recognizer.
Error verdicts counted in the errors list play no role in the overall
status. -/
theorem c1_status_characterization (env : DeployEnv) (cmds : List String) :
    ((deploy_switch_v2 env cmds).status = "failed" ↔
      (connOk env = false ∨
        (execLoop env.send cmds 0 ⟨0, [], [], false⟩).dropped = true ∨
        env.ping = SendOutcome.drop)) ∧
    ((deploy_switch_v2 env cmds).status = "success" ↔
      (connOk env = true ∧
        (execLoop env.send cmds 0 ⟨0, [], [], false⟩).dropped = false ∧
        ∃ out, env.ping = SendOutcome.ok out ∧ v2_ping_ok out = true)) ∧
    ((deploy_switch_v2 env cmds).status = "partial" ↔
      (connOk env = true ∧
        (execLoop env.send cmds 0 ⟨0, [], [], false⟩).dropped = false ∧
        ∃ out, env.ping = SendOutcome.ok out ∧ v2_ping_ok out = false)) := by
  by_cases h1 : connOk env = true
  · by_cases h2 : (execLoop env.send cmds 0 ⟨0, [], [], false⟩).dropped = true
    · rw [deploy_v2_dropped env cmds h1 h2]
      simp [h1, h2]
    · simp only [Bool.not_eq_true] at h2
      cases h3 : env.ping with
      | drop =>
        rw [deploy_v2_ping_drop env cmds h1 h2 h3]
        simp [h1, h2, h3]
      | ok out =>
        rw [deploy_v2_done env cmds out h1 h2 h3]
        by_cases h4 : v2_ping_ok out = true
        · simp [h1, h2, h3, h4]
        · simp only [Bool.not_eq_true] at h4
          simp [h1, h2, h3, h4]
  · simp only [Bool.not_eq_true] at h1
    rw [deploy_v2_conn_fail env cmds h1]
    simp [h1]

/-- C7: with the target unreachable on every attempt, ssh_connect makes
exactly its three attempts and sleeps the 3-second inter-attempt delay
twice (60 deciseconds in total); the deployment run then returns a
"failed" result with zero executed commands instead of raising past the
sequencer. -/
theorem c7_connect_retry (env : DeployEnv) (cmds : List String)
    (h : ∀ n, env.connOutcome n = false) :
    ssh_connect_run (connAttempts env) = (false, 3, 60) ∧
    (deploy_switch_v2 env cmds).status = "failed" ∧
    (deploy_switch_v2 env cmds).commands_sent = 0 ∧
    (deploy_switch_v2 env cmds).trace = [] := by
  have ha : connAttempts env = [false, false, false] := by
    simp [connAttempts, List.range_succ, h]
  have hconn : connOk env = false := by
    rw [connOk, ha]
    rfl
  rw [deploy_v2_conn_fail env cmds hconn, ha]
  exact ⟨rfl, rfl, rfl, rfl⟩

/-- Witness for C7 at a concrete always-unreachable environment. -/
theorem c7_connect_retry_witness :
    ssh_connect_run (connAttempts envC7) = (false, 3, 60) ∧
    (deploy_switch_v2 envC7 ["create vlan CORP_NET tag 20"]).status = "failed" ∧
    (deploy_switch_v2 envC7 ["create vlan CORP_NET tag 20"]).commands_sent = 0 ∧
    (deploy_switch_v2 envC7 ["create vlan CORP_NET tag 20"]).trace = [] :=
  c7_connect_retry envC7 ["create vlan CORP_NET tag 20"] (fun _ => rfl)

/-- C8 counterexample: the gateway probe passes, the core (peer) probe
fails — exactly one of the two probes passing — yet the exos run reports
"success", not the "Partial" the claim requires: the overall status is
derived from the gateway probe alone and the core probe is never read. -/
theorem c8_counterexample :
    exos_ping_ok "3 packets received" = true ∧
    exos_ping_ok "request timed out" = false ∧
    envC8.gwOut = SendOutcome.ok "3 packets received" ∧
    envC8.coreOut = SendOutcome.ok "request timed out" ∧
    (deploy_switch_exos envC8 ["create vlan CORP_NET tag 20"]).status = "success" := by
  decide

/-- C8 amended: when the exos run completes, the overall status is decided
by the gateway probe alone — "success" iff its output matches the
reachability recognizer, else "partial" — and the core (peer) probe output
is ignored.  Both probes passing therefore gives Success and a failing
gateway gives Partial (never Success), but gateway-pass with peer-fail
gives Success rather than the claimed Partial. -/
theorem c8_aggregation (env : ExosEnv) (cmds : List String) (gw core : String)
    (h1 : env.conn = true)
    (h2 : (exosLoop env.send cmds 0 ⟨[], [], false⟩).dropped = false)
    (h3 : verifyDropped env = false)
    (h4 : env.gwOut = SendOutcome.ok gw)
    (_h5 : env.coreOut = SendOutcome.ok core) :
    (deploy_switch_exos env cmds).status =
      (if exos_ping_ok gw then "success" else "partial") := by
  rw [deploy_exos_done env cmds gw h1 h2 h3 h4]

/-- Witness for C8 as amended, at the gateway-pass/peer-fail environment. -/
theorem c8_aggregation_witness :
    (deploy_switch_exos envC8 []).status = "success" := by
  have h := c8_aggregation envC8 [] "3 packets received" "request timed out"
    rfl rfl rfl rfl rfl
  rw [h]
  decide

end Capstone
